import Mathlib

/-!
Verification development for the ai_translator repository.

The embedding covers:
* `OpenAIModel.make_request` (src/ai_translator/model/openai_model.py),
  modelled as a fuel-indexed loop over a stream of per-attempt outcomes of
  the remote completion API;
* the translation loop of `PDFTranslator.translate_pdf`
  (src/ai_translator/translator/pdf_translator.py), modelled as a
  step-limited run over the parsed document so that intermediate states of
  the loop are observable;
* the CLI branch of src/ai_translator/main.py, including the keyword
  arguments it passes to the `OpenAIModel` constructor.

The document model (Book / Page / Content) and the Model base class are not
under src/; those definitions are modelled from the spec and say so in
their doc comments.
-/

namespace AITranslator

/-! ## Model Gateway: OpenAIModel.make_request -/

/-- Python's `str.strip()`: drop whitespace from both ends of the string.
(Executable model over the character list, so that concrete runs reduce.) -/
def pyStrip (s : String) : String :=
  ⟨((s.data.dropWhile Char.isWhitespace).reverse.dropWhile Char.isWhitespace).reverse⟩

/-- Outcome of one completion-request attempt, as the source distinguishes
them: a normal response carrying the returned text, `openai.RateLimitError`,
`openai.APIConnectionError`, `openai.APIStatusError` (non-200 status), or any
other exception. -/
inductive ApiOutcome where
  | success (text : String)
  | rateLimit
  | connectionError
  | statusError (code : Nat)
  | otherError (msg : String)
deriving DecidableEq, Repr

/-- Whether the source's `except` clauses swallow this outcome and retry it
without touching the `attempts` counter (`openai.APIConnectionError` and
`openai.APIStatusError` are caught, printed and the loop continues). -/
def ApiOutcome.retriedSilently : ApiOutcome → Bool
  | .connectionError => true
  | .statusError _ => true
  | _ => false

/-- How a call to `make_request` ends: a Python `return translation, success`
or a raised exception carrying a message. -/
inductive ReqResult where
  | returned (text : String) (success : Bool)
  | raised (msg : String)
deriving DecidableEq, Repr

/-- State of the `while attempts < 3` loop in `make_request`: the `attempts`
counter, the index of the next completion request to issue, and the number of
60-second `time.sleep(60)` backoff waits performed so far. -/
structure ReqState where
  attempts : Nat
  nextCall : Nat
  sleeps : Nat
deriving DecidableEq, Repr

/-- Result of one iteration of the loop: either the call finishes (with the
number of backoff waits performed), or the loop continues in a new state. -/
inductive StepOut where
  | done (r : ReqResult) (sleeps : Nat)
  | cont (s : ReqState)
deriving DecidableEq, Repr

/-- Message of the exception raised when the third attempt is rate limited. -/
def rateLimitMsg : String := "Rate limit reached. Maximum attempts exceeded."

/-- Prefix of the message wrapping any unrecognized exception. -/
def unknownErrMsg (m : String) : String := "发生了未知错误：" ++ m

/-- One iteration of `make_request`'s loop, from openai_model.py lines 29-65.
`resp n` is the outcome of the n-th completion request issued. On a normal
response both model branches return the response text stripped of surrounding
whitespace (`.strip()`, embedded as `pyStrip`) with success `True`. On
`RateLimitError` the counter is incremented; below 3 the code sleeps 60s and
retries, at 3 it raises. `APIConnectionError` and `APIStatusError` are caught,
printed, and the loop continues with `attempts` unchanged. Any other
exception is wrapped and re-raised. If the loop guard `attempts < 3` fails
the function returns `("", False)`. -/
def makeRequestStep (resp : Nat → ApiOutcome) (s : ReqState) : StepOut :=
  if s.attempts < 3 then
    match resp s.nextCall with
    | .success t => .done (.returned (pyStrip t) true) s.sleeps
    | .rateLimit =>
      if s.attempts + 1 < 3 then
        .cont { attempts := s.attempts + 1, nextCall := s.nextCall + 1, sleeps := s.sleeps + 1 }
      else
        .done (.raised rateLimitMsg) s.sleeps
    | .connectionError =>
      .cont { attempts := s.attempts, nextCall := s.nextCall + 1, sleeps := s.sleeps }
    | .statusError _ =>
      .cont { attempts := s.attempts, nextCall := s.nextCall + 1, sleeps := s.sleeps }
    | .otherError m => .done (.raised (unknownErrMsg m)) s.sleeps
  else
    .done (.returned "" false) s.sleeps

/-- Iterate `makeRequestStep` for at most `fuel` loop iterations; `none`
means the loop is still running after `fuel` iterations (each iteration
issues one completion request). -/
def makeRequestAux (resp : Nat → ApiOutcome) : Nat → ReqState → Option (ReqResult × Nat)
  | 0, _ => none
  | fuel + 1, s =>
    match makeRequestStep resp s with
    | .done r sl => some (r, sl)
    | .cont s2 => makeRequestAux resp fuel s2

/-- `make_request` on a stream of attempt outcomes, started from
`attempts = 0` with no requests issued and no backoff waits performed. -/
def make_request (resp : Nat → ApiOutcome) (fuel : Nat) : Option (ReqResult × Nat) :=
  makeRequestAux resp fuel ⟨0, 0, 0⟩

/-! ## Document model and PDFTranslator.translate_pdf -/

/-- Modelled from the spec: a content block of the document model (the book
module is not under src/). It holds the original extracted content
(abstracted as one string; for tables the source holds structured cell data)
plus the optional `translation` and `translation_succeeded` fields, which a
freshly parsed block leaves unset. -/
structure ContentBlock where
  original : String
  translation : Option String := none
  translation_succeeded : Option Bool := none
deriving DecidableEq, Repr

/-- Modelled from the spec: `Content.set_translation(translation, status)`
stores the translation text and the success flag on the block. -/
def ContentBlock.set_translation (c : ContentBlock) (t : String) (status : Bool) : ContentBlock :=
  { c with translation := some t, translation_succeeded := some status }

/-- Modelled from the spec: a page is an ordered sequence of content blocks. -/
structure Page where
  contents : List ContentBlock
deriving DecidableEq, Repr

/-- Modelled from the spec: a book (document) is an ordered sequence of
pages. -/
structure Book where
  pages : List Page
deriving DecidableEq, Repr

/-- The model dependency as `translate_pdf` uses it: `translate_prompt`
builds a prompt from a content block and the target language (pure string
templating per the spec; the Model base class is not under src/), and
`make_request` returns a `(translation, status)` pair for every call that
does not raise (an unhandled exception would abort the whole run, so a
completed run is one in which every call returned a pair). -/
structure ModelGateway where
  translate_prompt : ContentBlock → String → String
  make_request : String → String × Bool

/-- Counters and event log of one `translate_pdf` run: the `current`
counter, the number of calls made to the gateway's `make_request`, and the
sequence of values passed to the progress callback, in order. -/
structure RunAcc where
  current : Nat
  calls : Nat
  progress : List ℚ
deriving DecidableEq, Repr

/-- The progress value reported after `i` blocks of a document with `total`
blocks have been translated: `current/total*100`, in exact rational
arithmetic. -/
def progVal (total i : Nat) : ℚ := (i : ℚ) / (total : ℚ) * 100

/-- The body of translate_pdf's inner loop for one block (pdf_translator.py
lines 22-32): build the prompt, call `make_request`, store the returned pair
on the block with `set_translation`, increment `current`, and when a
progress callback is registered report `current/total*100` to it. -/
def processBlock (m : ModelGateway) (lang : String) (total : Nat) (cb : Bool)
    (acc : RunAcc) (c : ContentBlock) : ContentBlock × RunAcc :=
  let prompt := m.translate_prompt c lang
  let res := m.make_request prompt
  let c2 := c.set_translation res.1 res.2
  let current2 := acc.current + 1
  ⟨c2,
   { current := current2,
     calls := acc.calls + 1,
     progress := if cb then acc.progress ++ [progVal total current2] else acc.progress }⟩

/-- Run the inner loop over the blocks of one page, limited to at most
`steps` loop iterations in all; blocks beyond the step budget are left
untouched. Returns the page's blocks, the updated accumulator and the
remaining step budget. A large enough budget is exactly the source loop;
smaller budgets expose the intermediate states of the run. -/
def runContents (m : ModelGateway) (lang : String) (total : Nat) (cb : Bool) :
    Nat → RunAcc → List ContentBlock → List ContentBlock × RunAcc × Nat
  | steps, acc, [] => ([], acc, steps)
  | 0, acc, cs => (cs, acc, 0)
  | steps + 1, acc, c :: rest =>
    let pr := processBlock m lang total cb acc c
    let rr := runContents m lang total cb steps pr.2 rest
    (pr.1 :: rr.1, rr.2)

/-- The outer loop of translate_pdf over the pages, threading the step
budget through the pages. -/
def runPages (m : ModelGateway) (lang : String) (total : Nat) (cb : Bool) :
    Nat → RunAcc → List Page → List Page × RunAcc × Nat
  | steps, acc, [] => ([], acc, steps)
  | steps, acc, p :: rest =>
    let rc := runContents m lang total cb steps acc p.contents
    let rp := runPages m lang total cb rc.2.2 rc.2.1 rest
    (⟨rc.1⟩ :: rp.1, rp.2)

/-- `total = sum(len(page.contents) for page in self.book.pages)`. -/
def totalBlocks (b : Book) : Nat := (b.pages.map fun p => p.contents.length).sum

/-- All blocks of a book, in the order the translation loop visits them. -/
def bookBlocks (b : Book) : List ContentBlock := (b.pages.map fun p => p.contents).flatten

/-- The first `steps` iterations of the translation loop of
`PDFTranslator.translate_pdf` (pdf_translator.py lines 17-32), starting from
the freshly parsed book: compute `total`, start `current` at 0, and visit
pages in order and blocks within each page in order. `cb` records whether a
progress callback is registered. -/
def translateSteps (m : ModelGateway) (lang : String) (cb : Bool) (steps : Nat) (book : Book) :
    Book × RunAcc :=
  let r := runPages m lang (totalBlocks book) cb steps
    { current := 0, calls := 0, progress := [] } book.pages
  (⟨r.1⟩, r.2.1)

/-- The whole translation phase of `translate_pdf`: every block of the book
is visited. (Parsing happens before; the saving of the translated book
happens afterwards and does not modify the document.) -/
def translate_pdf (m : ModelGateway) (lang : String) (cb : Bool) (book : Book) : Book × RunAcc :=
  translateSteps m lang cb (totalBlocks book) book

/-- The value the loop stores on a block: exactly the pair the gateway
returns for this block's prompt, via one `set_translation` call. -/
def blockResult (m : ModelGateway) (lang : String) (c : ContentBlock) : ContentBlock :=
  c.set_translation (m.make_request (m.translate_prompt c lang)).1
    (m.make_request (m.translate_prompt c lang)).2

/-- The accumulator after `n` more blocks have been processed. -/
def accAfter (total : Nat) (cb : Bool) (acc : RunAcc) (n : Nat) : RunAcc :=
  { current := acc.current + n,
    calls := acc.calls + n,
    progress := acc.progress ++
      (if cb then (List.range n).map fun j => progVal total (acc.current + j + 1) else []) }

/-! ## The CLI branch of src/ai_translator/main.py -/

/-- Modelled from the spec: the parsed CLI arguments (ArgumentParser lives
in the utils module, which is not under src/); each translation-relevant
value is optional on the command line. -/
structure CLIArgs where
  openai_model : Option String
  openai_api_key : Option String
  book : Option String
  file_format : Option String
deriving DecidableEq, Repr

/-- Modelled from the spec: the values the loaded config file provides for
the keys `OpenAIModel.model`, `OpenAIModel.api_key`, `common.book` and
`common.file_format` (ConfigLoader lives in the utils module, which is not
under src/). -/
structure ConfigFile where
  openAIModel_model : String
  openAIModel_api_key : String
  common_book : String
  common_file_format : String
deriving DecidableEq, Repr

/-- The keyword parameters accepted by `OpenAIModel.__init__` in
src/ai_translator/model/openai_model.py line 13:
`def __init__(self, model: str)`. -/
def openAIModelInitParams : List String := ["model"]

/-- Python's keyword-argument check for a call `OpenAIModel(...)`: the
constructor body runs only when every keyword names a parameter of
`OpenAIModel.__init__`; otherwise the call raises a `TypeError` naming the
first unexpected keyword. -/
def callOpenAIModelInit (kwargs : List String) : Except String Unit :=
  match kwargs.find? (fun k => !(openAIModelInitParams.contains k)) with
  | some k => .error ("__init__() got an unexpected keyword argument " ++ k)
  | none => .ok ()

/-- The CLI branch of main.py (lines 17-34): resolve the model name, api
key, book path and file format, with a present CLI argument taking
precedence over the config file value, construct the model with
`OpenAIModel(model=model_name, api_key=api_key)`, and invoke
`translator.translate_pdf(pdf_file_path, file_format)`. The `ok` value
carries `(model_name, api_key, pdf_file_path, file_format)`, the data of
the model construction and of the translate_pdf invocation; an `error` is a
raised exception. -/
def mainCLI (args : CLIArgs) (cfg : ConfigFile) :
    Except String (String × String × String × String) :=
  let model_name := args.openai_model.getD cfg.openAIModel_model
  let api_key := args.openai_api_key.getD cfg.openAIModel_api_key
  match callOpenAIModelInit ["model", "api_key"] with
  | .error e => .error e
  | .ok _ =>
    let pdf_file_path := args.book.getD cfg.common_book
    let file_format := args.file_format.getD cfg.common_file_format
    .ok (model_name, api_key, pdf_file_path, file_format)

/-! ## Concrete instances, used to evaluate the development on closed inputs -/

/-- A gateway whose every request succeeds, echoing the prompt back. -/
def sampleGateway : ModelGateway :=
  ⟨fun c _ => c.original, fun p => (p, true)⟩

/-- A gateway whose every request reports failure, as `make_request` does
when it gives up: the pair `("", false)`. -/
def sampleFailGateway : ModelGateway :=
  ⟨fun c _ => c.original, fun _ => ("", false)⟩

/-- A one-page book holding a single untranslated block. -/
def sampleBook : Book := ⟨[⟨[⟨"hello", none, none⟩]⟩]⟩

/-- A book with one page and zero content blocks. -/
def emptyPageBook : Book := ⟨[⟨[]⟩]⟩

/-- A response stream that rate-limits the first two attempts and then
succeeds. -/
def rlRlSuccess : Nat → ApiOutcome :=
  fun n => if n < 2 then ApiOutcome.rateLimit else ApiOutcome.success "你好"

end AITranslator

namespace AITranslator

/-! ## Helper lemmas about make_request -/

theorem step_returned_false (resp : Nat → ApiOutcome) (s : ReqState) (t : String) (sl : Nat)
    (h : makeRequestStep resp s = .done (.returned t false) sl) : t = "" := by
  unfold makeRequestStep at h
  split at h
  · split at h
    · simp at h
    · split at h <;> simp at h
    · simp at h
    · simp at h
    · simp at h
  · simp only [StepOut.done.injEq, ReqResult.returned.injEq] at h
    exact h.1.1.symm

theorem makeRequestAux_returned_false (resp : Nat → ApiOutcome) :
    ∀ (fuel : Nat) (s : ReqState) (t : String) (sl : Nat),
      makeRequestAux resp fuel s = some (.returned t false, sl) → t = "" := by
  intro fuel
  induction fuel with
  | zero => intro s t sl h; simp [makeRequestAux] at h
  | succ n ih =>
    intro s t sl h
    simp only [makeRequestAux] at h
    cases hstep : makeRequestStep resp s
    · rw [hstep] at h
      simp only [Option.some.injEq, Prod.mk.injEq] at h
      exact step_returned_false resp s t sl (h.1 ▸ h.2.symm ▸ hstep)
    · rw [hstep] at h
      exact ih _ t sl h

theorem makeRequestAux_conn_none (fuel : Nat) :
    ∀ s : ReqState, s.attempts < 3 →
      makeRequestAux (fun _ => ApiOutcome.connectionError) fuel s = none := by
  induction fuel with
  | zero => intro s _; rfl
  | succ n ih =>
    intro s hs
    simp only [makeRequestAux, makeRequestStep, hs, if_pos]
    exact ih _ hs

theorem makeRequestAux_no_silent_done (resp : Nat → ApiOutcome)
    (h : ∀ n, (resp n).retriedSilently = false) : (make_request resp 3).isSome = true := by
  unfold make_request
  cases e0 : resp 0 with
  | connectionError => exact absurd (h 0) (by simp [e0, ApiOutcome.retriedSilently])
  | statusError c => exact absurd (h 0) (by simp [e0, ApiOutcome.retriedSilently])
  | success t => simp [makeRequestAux, makeRequestStep, e0]
  | otherError msg => simp [makeRequestAux, makeRequestStep, e0]
  | rateLimit =>
    cases e1 : resp 1 with
    | connectionError => exact absurd (h 1) (by simp [e1, ApiOutcome.retriedSilently])
    | statusError c => exact absurd (h 1) (by simp [e1, ApiOutcome.retriedSilently])
    | success t => simp [makeRequestAux, makeRequestStep, e0, e1]
    | otherError msg => simp [makeRequestAux, makeRequestStep, e0, e1]
    | rateLimit =>
      cases e2 : resp 2 with
      | connectionError => exact absurd (h 2) (by simp [e2, ApiOutcome.retriedSilently])
      | statusError c => exact absurd (h 2) (by simp [e2, ApiOutcome.retriedSilently])
      | success t => simp [makeRequestAux, makeRequestStep, e0, e1, e2]
      | otherError msg => simp [makeRequestAux, makeRequestStep, e0, e1, e2]
      | rateLimit => simp [makeRequestAux, makeRequestStep, e0, e1, e2]

/-! ## Helper lemmas about the translation loop -/

theorem accAfter_zero (total : Nat) (cb : Bool) (acc : RunAcc) :
    accAfter total cb acc 0 = acc := by
  cases acc
  simp [accAfter]

theorem accAfter_accAfter (total : Nat) (cb : Bool) (acc : RunAcc) (a b : Nat) :
    accAfter total cb (accAfter total cb acc a) b = accAfter total cb acc (a + b) := by
  cases acc with
  | mk cur cal prog =>
    cases cb with
    | false => simp [accAfter, Nat.add_assoc]
    | true =>
      simp only [accAfter, RunAcc.mk.injEq, if_true, List.append_assoc]
      refine ⟨by omega, by omega, ?_⟩
      congr 1
      rw [List.range_add, List.map_append, List.map_map]
      congr 1
      apply List.map_congr_left
      intro j hj
      simp [Function.comp]
      congr 1
      omega

theorem processBlock_eq (m : ModelGateway) (lang : String) (total : Nat) (cb : Bool)
    (acc : RunAcc) (c : ContentBlock) :
    processBlock m lang total cb acc c = (blockResult m lang c, accAfter total cb acc 1) := by
  cases acc
  cases cb <;> simp [processBlock, blockResult, accAfter, List.range_succ]

theorem runContents_eq (m : ModelGateway) (lang : String) (total : Nat) (cb : Bool) :
    ∀ (cs : List ContentBlock) (steps : Nat) (acc : RunAcc),
      runContents m lang total cb steps acc cs =
        ((cs.take steps).map (blockResult m lang) ++ cs.drop steps,
         accAfter total cb acc (min steps cs.length),
         steps - cs.length) := by
  intro cs
  induction cs with
  | nil => intro steps acc; simp [runContents, accAfter_zero]
  | cons c rest ih =>
    intro steps acc
    cases steps with
    | zero => simp [runContents, accAfter_zero]
    | succ k =>
      have hmin : 1 + min k rest.length = min (k + 1) (rest.length + 1) := by omega
      simp only [runContents, processBlock_eq, ih, List.take_succ_cons, List.map_cons,
        List.drop_succ_cons, List.length_cons, accAfter_accAfter, hmin, Nat.succ_sub_succ,
        List.cons_append]

theorem runPages_eq (m : ModelGateway) (lang : String) (total : Nat) (cb : Bool) :
    ∀ (ps : List Page) (steps : Nat) (acc : RunAcc),
      (ps.map fun p => p.contents.length).sum ≤ steps →
      runPages m lang total cb steps acc ps =
        (ps.map fun p => ⟨p.contents.map (blockResult m lang)⟩,
         accAfter total cb acc (ps.map fun p => p.contents.length).sum,
         steps - (ps.map fun p => p.contents.length).sum) := by
  intro ps
  induction ps with
  | nil => intro steps acc h; simp [runPages, accAfter_zero]
  | cons p rest ih =>
    intro steps acc h
    simp only [List.map_cons, List.sum_cons] at h ⊢
    have hlen : p.contents.length ≤ steps := by omega
    have hrest : (rest.map fun p => p.contents.length).sum ≤ steps - p.contents.length := by
      omega
    simp only [runPages, runContents_eq, ih _ _ hrest, List.take_of_length_le hlen,
      List.drop_eq_nil_of_le hlen, min_eq_right hlen, accAfter_accAfter, List.append_nil,
      Nat.sub_sub]

theorem runPages_flatten (m : ModelGateway) (lang : String) (total : Nat) (cb : Bool) :
    ∀ (ps : List Page) (steps : Nat) (acc : RunAcc),
      (((runPages m lang total cb steps acc ps).1.map fun p => p.contents).flatten =
        ((ps.map fun p => p.contents).flatten.take steps).map (blockResult m lang) ++
          (ps.map fun p => p.contents).flatten.drop steps) ∧
      (runPages m lang total cb steps acc ps).2.2 =
        steps - (ps.map fun p => p.contents).flatten.length := by
  intro ps
  induction ps with
  | nil => intro steps acc; simp [runPages]
  | cons p rest ih =>
    intro steps acc
    simp only [runPages, runContents_eq, List.map_cons, List.flatten_cons]
    constructor
    · rw [List.take_append_eq_append_take, List.drop_append_eq_append_drop,
        (ih _ _).1, List.map_append, List.append_assoc]
      by_cases hc : p.contents.length ≤ steps
      · rw [List.drop_eq_nil_of_le hc]
        simp
      · have h0 : steps - p.contents.length = 0 := by omega
        rw [h0]
        simp
    · rw [(ih _ _).2]
      simp only [List.length_append]
      omega

theorem translate_pdf_eq (m : ModelGateway) (lang : String) (cb : Bool) (book : Book) :
    translate_pdf m lang cb book =
      (⟨book.pages.map fun p => ⟨p.contents.map (blockResult m lang)⟩⟩,
       { current := totalBlocks book, calls := totalBlocks book,
         progress := if cb then (List.range (totalBlocks book)).map fun j =>
           progVal (totalBlocks book) (j + 1) else [] }) := by
  unfold translate_pdf translateSteps
  rw [runPages_eq m lang _ cb book.pages (totalBlocks book) _ le_rfl]
  simp [accAfter, totalBlocks]

theorem bookBlocks_length (book : Book) : (bookBlocks book).length = totalBlocks book := by
  simp only [bookBlocks, totalBlocks, List.length_flatten, List.map_map]
  rfl

end AITranslator

namespace AITranslator

/-! ## Claim theorems -/

/-- C1 counterexample: when every attempt is rate limited, `make_request`
raises the "Rate limit reached" exception after two backoff waits; it does
not return the pair `("", false)`. -/
theorem make_request_all_rate_limits_no_empty_return :
    make_request (fun _ => ApiOutcome.rateLimit) 10 = some (.raised rateLimitMsg, 2) ∧
    ReqResult.raised rateLimitMsg ≠ ReqResult.returned "" false :=
  ⟨rfl, by decide⟩

/-- C1 (amended): for every call to make_request in which every one of the
3 attempts receives a rate-limit signal, make_request raises the exception
"Rate limit reached. Maximum attempts exceeded." after 2 backoff waits,
rather than returning the pair ("", false). -/
theorem make_request_all_rate_limits_raises (resp : Nat → ApiOutcome) (fuel : Nat)
    (h0 : resp 0 = .rateLimit) (h1 : resp 1 = .rateLimit) (h2 : resp 2 = .rateLimit)
    (hf : 3 ≤ fuel) :
    make_request resp fuel = some (.raised rateLimitMsg, 2) := by
  obtain ⟨k, rfl⟩ : ∃ k, fuel = k + 3 := ⟨fuel - 3, by omega⟩
  simp [make_request, makeRequestAux, makeRequestStep, h0, h1, h2]

/-- Witness for C1's amended theorem at the all-rate-limit stream. -/
theorem make_request_all_rate_limits_raises_witness :
    (fun _ : Nat => ApiOutcome.rateLimit) 0 = ApiOutcome.rateLimit ∧ (3 : Nat) ≤ 3 ∧
    make_request (fun _ => ApiOutcome.rateLimit) 3 = some (.raised rateLimitMsg, 2) :=
  ⟨rfl, by decide, make_request_all_rate_limits_raises (fun _ => ApiOutcome.rateLimit) 3
    rfl rfl rfl (by decide)⟩

/-- C2: on a book with N >= 1 blocks and a registered progress callback, the
completed run sets translation and translation_succeeded on every block, and
the recorded progress sequence is exactly [1/N*100, ..., N/N*100]: it has
length N, its k-th entry (1-based) is k/N*100, it is strictly increasing,
and its last value is 100. -/
theorem translate_pdf_progress_exact (m : ModelGateway) (lang : String) (book : Book)
    (h : 1 ≤ totalBlocks book) :
    (∀ p ∈ (translate_pdf m lang true book).1.pages, ∀ c ∈ p.contents,
        c.translation.isSome ∧ c.translation_succeeded.isSome) ∧
    (translate_pdf m lang true book).2.progress =
      (List.range (totalBlocks book)).map (fun k => progVal (totalBlocks book) (k + 1)) ∧
    (translate_pdf m lang true book).2.progress.length = totalBlocks book ∧
    (translate_pdf m lang true book).2.progress.Pairwise (· < ·) ∧
    (translate_pdf m lang true book).2.progress.getLast? = some 100 := by
  have hprog : (translate_pdf m lang true book).2.progress =
      (List.range (totalBlocks book)).map (fun k => progVal (totalBlocks book) (k + 1)) := by
    rw [translate_pdf_eq]
    rfl
  refine ⟨?_, hprog, by rw [hprog]; simp, ?_, ?_⟩
  · rw [translate_pdf_eq]
    intro p hp c hc
    simp only [List.mem_map] at hp
    obtain ⟨p0, _, rfl⟩ := hp
    simp only [List.mem_map] at hc
    obtain ⟨c0, _, rfl⟩ := hc
    simp [blockResult, ContentBlock.set_translation]
  · rw [hprog]
    refine List.Pairwise.map _ ?_ (List.pairwise_lt_range (totalBlocks book))
    intro a b hab
    unfold progVal
    have hNpos : (0 : ℚ) < (totalBlocks book : ℚ) := by
      have h0 : 0 < totalBlocks book := h
      exact_mod_cast h0
    apply mul_lt_mul_of_pos_right _ (by norm_num)
    rw [div_lt_div_iff_of_pos_right hNpos]
    exact_mod_cast Nat.succ_lt_succ hab
  · rw [hprog]
    obtain ⟨n, hn⟩ : ∃ n, totalBlocks book = n + 1 := ⟨totalBlocks book - 1, by omega⟩
    rw [hn, List.range_succ, List.map_append]
    simp only [List.map_cons, List.map_nil, List.getLast?_concat]
    unfold progVal
    rw [div_self (by exact_mod_cast Nat.succ_ne_zero n), one_mul]

/-- Witness for C2 on a one-block book with an echoing gateway. -/
theorem translate_pdf_progress_exact_witness :
    1 ≤ totalBlocks sampleBook ∧
    ((∀ p ∈ (translate_pdf sampleGateway "中文" true sampleBook).1.pages, ∀ c ∈ p.contents,
        c.translation.isSome ∧ c.translation_succeeded.isSome) ∧
     (translate_pdf sampleGateway "中文" true sampleBook).2.progress =
       (List.range (totalBlocks sampleBook)).map
         (fun k => progVal (totalBlocks sampleBook) (k + 1)) ∧
     (translate_pdf sampleGateway "中文" true sampleBook).2.progress.length =
       totalBlocks sampleBook ∧
     (translate_pdf sampleGateway "中文" true sampleBook).2.progress.Pairwise (· < ·) ∧
     (translate_pdf sampleGateway "中文" true sampleBook).2.progress.getLast? = some 100) :=
  ⟨by decide, translate_pdf_progress_exact sampleGateway "中文" sampleBook (by decide)⟩

/-- C3 counterexample: with a connection failure on attempt 1 and a success
on attempt 2, make_request returns the attempt-2 translation successfully
with no backoff wait: the connection failure was retried, not surfaced as a
thrown error. -/
theorem make_request_connection_error_recovers :
    (fun n => if n = 0 then ApiOutcome.connectionError else ApiOutcome.success "你好") 0 =
      ApiOutcome.connectionError ∧
    make_request (fun n => if n = 0 then ApiOutcome.connectionError else ApiOutcome.success "你好")
      5 = some (.returned "你好" true, 0) :=
  ⟨rfl, by decide⟩

/-- C3 (amended): an attempt that fails with a connection failure (or a
non-200 status, which covers authentication failures) is caught, printed,
and retried: the loop continues with the attempts counter unchanged, so the
failure is never surfaced as a thrown error and does not count against the
3 attempts. -/
theorem make_request_silent_retry_on_connection_error (resp : Nat → ApiOutcome) (s : ReqState)
    (ha : s.attempts < 3) (hr : (resp s.nextCall).retriedSilently = true) :
    makeRequestStep resp s = .cont ⟨s.attempts, s.nextCall + 1, s.sleeps⟩ := by
  unfold makeRequestStep
  rw [if_pos ha]
  cases e : resp s.nextCall <;> rw [e] at hr <;>
    simp_all [ApiOutcome.retriedSilently]

/-- Witness for C3's amended theorem at a concrete state. -/
theorem make_request_silent_retry_on_connection_error_witness :
    (0 : Nat) < 3 ∧ ((fun _ : Nat => ApiOutcome.connectionError) 0).retriedSilently = true ∧
    makeRequestStep (fun _ => ApiOutcome.connectionError) ⟨0, 0, 0⟩ = .cont ⟨0, 1, 0⟩ :=
  ⟨by decide, by decide,
    make_request_silent_retry_on_connection_error (fun _ => ApiOutcome.connectionError)
      ⟨0, 0, 0⟩ (by decide) (by decide)⟩

/-- C4 counterexample: on a stream of persistent connection failures the
loop is still running after 4 attempts, so make_request does not terminate
within 3 attempts. -/
theorem make_request_four_connection_errors_still_running :
    make_request (fun _ => ApiOutcome.connectionError) 4 = none := rfl

/-- C4 (amended): make_request terminates after at most 3 attempts only for
response sequences that contain no connection failures and no non-200
statuses (those are caught and retried without bound and without counting
toward the 3 attempts): if no attempt receives such a silently-retried
outcome the call finishes within 3 attempts, while on persistent connection
failures the loop never terminates, no matter how many iterations it is
allowed. -/
theorem make_request_termination_dichotomy :
    (∀ resp : Nat → ApiOutcome, (∀ n, (resp n).retriedSilently = false) →
      (make_request resp 3).isSome = true) ∧
    (∀ fuel : Nat, make_request (fun _ => ApiOutcome.connectionError) fuel = none) :=
  ⟨fun resp h => makeRequestAux_no_silent_done resp h,
   fun fuel => makeRequestAux_conn_none fuel ⟨0, 0, 0⟩ (by decide)⟩

/-- Witness for C4's amended theorem at concrete streams. -/
theorem make_request_termination_dichotomy_witness :
    (make_request (fun _ => ApiOutcome.success "ok") 3).isSome = true ∧
    make_request (fun _ => ApiOutcome.connectionError) 9 = none :=
  ⟨make_request_termination_dichotomy.1 (fun _ => ApiOutcome.success "ok") (fun _ => rfl),
   make_request_termination_dichotomy.2 9⟩

/-- C5: under a gateway whose failures are reported as ("", false) pairs —
which is what OpenAIModel.make_request does, per the second conjunct: any
returned pair with success=false carries the empty string — the completed
translate_pdf run still sets the translation fields on every block of the
book (no block failure aborts the run), and every block whose stored status
is false stores the empty string as its translation. -/
theorem translate_pdf_failed_block_empty_translation (m : ModelGateway) (lang : String)
    (cb : Bool) (book : Book)
    (hm : ∀ p, (m.make_request p).2 = false → (m.make_request p).1 = "") :
    (∀ p ∈ (translate_pdf m lang cb book).1.pages, ∀ c ∈ p.contents,
        c.translation.isSome ∧ c.translation_succeeded.isSome ∧
          (c.translation_succeeded = some false → c.translation = some "")) ∧
    (∀ (resp : Nat → ApiOutcome) (fuel : Nat) (t : String) (sl : Nat),
        make_request resp fuel = some (.returned t false, sl) → t = "") := by
  constructor
  · rw [translate_pdf_eq]
    intro p hp c hc
    simp only [List.mem_map] at hp
    obtain ⟨p0, _, rfl⟩ := hp
    simp only [List.mem_map] at hc
    obtain ⟨c0, _, rfl⟩ := hc
    simp only [blockResult, ContentBlock.set_translation, Option.isSome_some,
      Option.some.injEq, true_and]
    intro hfalse
    exact hm _ hfalse
  · intro resp fuel t sl h
    exact makeRequestAux_returned_false resp fuel _ t sl h

/-- Witness for C5 on a one-block book with an always-failing gateway. -/
theorem translate_pdf_failed_block_empty_translation_witness :
    (∀ p ∈ (translate_pdf sampleFailGateway "中文" true sampleBook).1.pages, ∀ c ∈ p.contents,
        c.translation.isSome ∧ c.translation_succeeded.isSome ∧
          (c.translation_succeeded = some false → c.translation = some "")) ∧
    (∀ (resp : Nat → ApiOutcome) (fuel : Nat) (t : String) (sl : Nat),
        make_request resp fuel = some (.returned t false, sl) → t = "") :=
  translate_pdf_failed_block_empty_translation sampleFailGateway "中文" true sampleBook
    (fun _ _ => rfl)

/-- C6: the state of the book after the first k iterations of the
translation loop: the k blocks already visited (in page order, then block
order) each hold the result of exactly one set_translation call, and every
block not yet visited is exactly as the parser produced it — in particular
its translation fields are still unset. Instantiated at every k up to the
total this traces the whole run, so no block is touched before its visit or
translated twice; the second conjunct is the completed run. -/
theorem translateSteps_visits_blocks_in_order_once (m : ModelGateway) (lang : String)
    (cb : Bool) (book : Book) :
    (∀ k : Nat, bookBlocks (translateSteps m lang cb k book).1 =
      ((bookBlocks book).take k).map (blockResult m lang) ++ (bookBlocks book).drop k) ∧
    bookBlocks (translate_pdf m lang cb book).1 =
      (bookBlocks book).map (blockResult m lang) := by
  have hmain : ∀ k : Nat, bookBlocks (translateSteps m lang cb k book).1 =
      ((bookBlocks book).take k).map (blockResult m lang) ++ (bookBlocks book).drop k :=
    fun k => (runPages_flatten m lang (totalBlocks book) cb book.pages k _).1
  refine ⟨hmain, ?_⟩
  have hlen : (bookBlocks book).length = totalBlocks book := bookBlocks_length book
  rw [show translate_pdf m lang cb book = translateSteps m lang cb (totalBlocks book) book
      from rfl, hmain (totalBlocks book), ← hlen, List.take_length, List.drop_length,
    List.append_nil]

/-- C7: rate limits on attempts 1 and 2 and a success with text t on
attempt 3 yield exactly 2 backoff waits of 60 seconds and the return value
(t, true) (the source returns the response text stripped, so t is stated
strip-invariant). -/
theorem make_request_two_rate_limits_then_success (resp : Nat → ApiOutcome) (t : String)
    (fuel : Nat) (h0 : resp 0 = .rateLimit) (h1 : resp 1 = .rateLimit)
    (h2 : resp 2 = .success t) (ht : pyStrip t = t) (hf : 3 ≤ fuel) :
    make_request resp fuel = some (.returned t true, 2) := by
  obtain ⟨k, rfl⟩ : ∃ k, fuel = k + 3 := ⟨fuel - 3, by omega⟩
  simp [make_request, makeRequestAux, makeRequestStep, h0, h1, h2, ht]

/-- Witness for C7 at a concrete rate-limit, rate-limit, success stream. -/
theorem make_request_two_rate_limits_then_success_witness :
    rlRlSuccess 0 = ApiOutcome.rateLimit ∧ rlRlSuccess 2 = ApiOutcome.success "你好" ∧
    pyStrip "你好" = "你好" ∧
    make_request rlRlSuccess 3 = some (.returned "你好" true, 2) :=
  ⟨rfl, rfl, by decide,
    make_request_two_rate_limits_then_success rlRlSuccess "你好" 3 rfl rfl rfl (by decide)
      (by decide)⟩

/-- C8: on a parsed document with zero content blocks the translation phase
performs no gateway call and no progress-callback invocation. -/
theorem translate_pdf_zero_blocks_no_calls (m : ModelGateway) (lang : String) (cb : Bool)
    (book : Book) (h : totalBlocks book = 0) :
    (translate_pdf m lang cb book).2.calls = 0 ∧
    (translate_pdf m lang cb book).2.progress = [] := by
  rw [translate_pdf_eq]
  refine ⟨h, ?_⟩
  cases cb <;> simp [h]

/-- Witness for C8 on a book with one page and no blocks. -/
theorem translate_pdf_zero_blocks_no_calls_witness :
    totalBlocks emptyPageBook = 0 ∧
    ((translate_pdf sampleGateway "中文" true emptyPageBook).2.calls = 0 ∧
     (translate_pdf sampleGateway "中文" true emptyPageBook).2.progress = []) :=
  ⟨by decide, translate_pdf_zero_blocks_no_calls sampleGateway "中文" true emptyPageBook
    (by decide)⟩

/-- C9: in CLI mode the call OpenAIModel(model=model_name, api_key=api_key)
in main.py passes the keyword api_key, which OpenAIModel.__init__ does not
accept, so for every combination of CLI arguments and config values the run
raises a TypeError before a model is constructed and translate_pdf is never
invoked. -/
theorem mainCLI_always_type_error (args : CLIArgs) (cfg : ConfigFile) :
    mainCLI args cfg = .error "__init__() got an unexpected keyword argument api_key" := rfl

/-- C10: a translate_pdf run preserves the document structure: the number of
pages, and per page the blocks in order with their original extracted
content, are unchanged (the run only fills each block's translation
fields). -/
theorem translate_pdf_preserves_document_structure (m : ModelGateway) (lang : String)
    (cb : Bool) (book : Book) :
    (translate_pdf m lang cb book).1.pages.length = book.pages.length ∧
    (translate_pdf m lang cb book).1.pages.map (fun p => p.contents.map fun c => c.original) =
      book.pages.map fun p => p.contents.map fun c => c.original := by
  rw [translate_pdf_eq]
  constructor
  · simp
  · simp [List.map_map, Function.comp, blockResult, ContentBlock.set_translation]

end AITranslator
